import Mathlib

/-!
Verification of the real-estate evaluation harness.

Shallow embedding of the repository code:
  * `src/src/real_estate_agent/pinecone_client.py` (metadata filter compiler),
  * `src/evaluation/performance_pipeline.py` (A/B/C pipeline, response parser,
    property matcher, metadata-only search),
  * `src/evaluation/evaluator.py` (LLM judge wrapper and its output parser),
  * `src/evaluation/metrics.py` (latency measurement, result compilation),
  * `src/evaluation/test_queries.py` (the 10 fixed test cases).

Python strings are modelled by `String` (code points), Python `int` by `Int`,
Python `float` by `Rat` (the evaluation logic only ever compares and adds these
values, it never relies on binary rounding), Python `None`-able values by
`Option`, raised exceptions by `Except String`.  External collaborators (the
LangChain agent and the OpenAI judge) are oracles passed in as parameters.
-/

/-! ### Python primitive helpers

Small total models of the Python string/number builtins the embedded code
uses.  ASCII behaviour is modelled; all strings appearing in the repository
and in the claims are ASCII apart from the em-dash, which none of these
helpers touch.
-/

/-- Characters accepted by Python `str.strip()` / `\s` / `str.split()`
(ASCII whitespace). -/
def pyIsSpace (c : Char) : Bool :=
  c = ' ' || c = '\t' || c = '\n' || c = '\x0d' || c = '\x0c' || c = '\x0b'

/-- Python `str.strip()` with no argument: drop leading and trailing
whitespace. -/
def pyStrip (s : String) : String :=
  ⟨(s.data.dropWhile pyIsSpace).reverse.dropWhile pyIsSpace |>.reverse⟩

/-- Python `str.lower()` (ASCII letters; all inputs in this code base are
ASCII). -/
def pyLower (s : String) : String :=
  ⟨s.data.map Char.toLower⟩

/-- Scan for `pySplitWS`, carrying the current word reversed. -/
def pySplitWSGo (cur : List Char) : List Char → List String
  | [] => if cur = [] then [] else [⟨cur.reverse⟩]
  | c :: rest =>
    if pyIsSpace c then
      if cur = [] then pySplitWSGo [] rest
      else ⟨cur.reverse⟩ :: pySplitWSGo [] rest
    else pySplitWSGo (c :: cur) rest

/-- Python `str.split()` with no argument: split on runs of whitespace,
discarding empty pieces. -/
def pySplitWS (s : String) : List String :=
  pySplitWSGo [] s.data

/-- Scan for `pySplitLines`, carrying the current line reversed. -/
def pySplitLinesGo (cur : List Char) : List Char → List String
  | [] => [⟨cur.reverse⟩]
  | c :: rest =>
    if c = '\n' then ⟨cur.reverse⟩ :: pySplitLinesGo [] rest
    else pySplitLinesGo (c :: cur) rest

/-- Python `str.split("\n")`: split at every newline, keeping empty pieces
(the empty string splits to one empty piece). -/
def pySplitLines (s : String) : List String :=
  pySplitLinesGo [] s.data

/-- Python `str.startswith(pre)`. -/
def pyStartsWith (s pre : String) : Bool :=
  pre.data.isPrefixOf s.data

/-- Scan for `pySubstr`: does `needle` occur as a contiguous sublist of
`haystack`? -/
def substrGo (needle : List Char) : List Char → Bool
  | [] => needle.isEmpty
  | c :: rest => needle.isPrefixOf (c :: rest) || substrGo needle rest

/-- `needle` occurs as a contiguous substring of `haystack`
(Python `needle in haystack`). -/
def pySubstr (needle haystack : String) : Bool :=
  substrGo needle.data haystack.data

/-- Scan for `pyReplace`: replace every non-overlapping occurrence of `pat`,
scanning left to right; `skip` counts pattern characters still to be consumed
after an emitted replacement. -/
def pyReplaceGo (pat rep : List Char) : Nat → List Char → List Char
  | _, [] => []
  | Nat.succ k, _ :: rest => pyReplaceGo pat rep k rest
  | 0, c :: rest =>
    if pat ≠ [] ∧ pat.isPrefixOf (c :: rest) then
      rep ++ pyReplaceGo pat rep (pat.length - 1) rest
    else
      c :: pyReplaceGo pat rep 0 rest

/-- Python `str.replace(pat, rep)`.  `pat` is one of the non-empty literals
`","` / `".0"` in the embedded code. -/
def pyReplace (s pat rep : String) : String :=
  ⟨pyReplaceGo pat.data rep.data 0 s.data⟩

/-- Digits read as a natural number (empty list allowed, reads as 0; callers
check non-emptiness). -/
def digitsToNat (ds : List Char) : Nat :=
  ds.foldl (fun acc c => acc * 10 + (c.toNat - '0'.toNat)) 0

/-- Python `int(s)`: optional surrounding whitespace, optional sign, at least
one decimal digit, nothing else.  Returns `Except` to model the `ValueError`
raised on malformed input.  (Underscore separators and non-ASCII digits are
not used by the embedded code and are not modelled.) -/
def pyInt (s : String) : Except String Int :=
  let cs := (pyStrip s).data
  let (sign, cs) : Int × List Char :=
    match cs with
    | '-' :: rest => (-1, rest)
    | '+' :: rest => (1, rest)
    | rest => (1, rest)
  let ds := cs.takeWhile Char.isDigit
  let rest := cs.dropWhile Char.isDigit
  if ds ≠ [] ∧ rest = [] then
    .ok (sign * (digitsToNat ds : Int))
  else
    .error ("invalid literal for int() with base 10: " ++ s)

/-- Sign application for `pyFloat` (negation only when a minus sign was
read). -/
def pySign (neg : Bool) (x : Rat) : Rat :=
  if neg then -x else x

/-- Python `float(s)` restricted to fixed-point decimal literals: optional
surrounding whitespace, optional sign, `digits`, `digits.`, `.digits` or
`digits.digits`.  Returns the exact rational value.  (Exponents, `inf` and
`nan` never occur in the embedded code paths and are not modelled.) -/
def pyFloat (s : String) : Except String Rat :=
  let cs := (pyStrip s).data
  let (neg, cs) : Bool × List Char :=
    match cs with
    | '-' :: rest => (true, rest)
    | '+' :: rest => (false, rest)
    | rest => (false, rest)
  let ipart := cs.takeWhile Char.isDigit
  let rest := cs.dropWhile Char.isDigit
  match rest with
  | [] =>
    if ipart ≠ [] then .ok (pySign neg (digitsToNat ipart : Rat))
    else .error ("could not convert string to float: " ++ s)
  | '.' :: rest2 =>
    let fpart := rest2.takeWhile Char.isDigit
    let rest3 := rest2.dropWhile Char.isDigit
    if (ipart ≠ [] ∨ fpart ≠ []) ∧ rest3 = [] then
      .ok (pySign neg ((digitsToNat ipart : Rat) +
        (digitsToNat fpart : Rat) / ((10 : Rat) ^ fpart.length)))
    else .error ("could not convert string to float: " ++ s)
  | _ => .error ("could not convert string to float: " ++ s)

/-- Python `s.split(sep, 1)[1]` for a single-character separator `":"`:
everything after the first colon.  The embedded call sites only reach this
after checking that the line starts with a tag containing a colon. -/
def pyAfterColon (s : String) : String :=
  ⟨(s.data.dropWhile (fun c => c ≠ ':')).drop 1⟩


/-! ### Backtracking regular-expression engine

`_parse_agent_response` applies two `re.match` patterns.  Both are embedded
here as abstract syntax plus a continuation-passing backtracking matcher with
Python `re` preference order: alternation prefers the left branch, greedy
quantifiers prefer longer matches, lazy quantifiers prefer shorter ones.
Every quantifier occurring in the two source patterns has a single-character
body, so the star constructors take a character class directly, which keeps
all recursion structural. -/

/-- Pattern syntax: empty, one character of a class, greedy star, lazy star,
sequencing, alternation (left preferred), numbered capture group, and the
end-of-input anchor `$` (the matched lines never contain a newline, so
Python's end-or-before-trailing-newline behaviour coincides with
end-of-input). -/
inductive RE where
  | eps
  | cls (p : Char → Bool)
  | starG (p : Char → Bool)
  | starL (p : Char → Bool)
  | seq (a b : RE)
  | alt (a b : RE)
  | group (idx : Nat) (a : RE)
  | eol

/-- Capture environment: group index paired with captured text, most recent
first. -/
abbrev Caps := List (Nat × String)

/-- Greedy star over a character class, in continuation-passing style: consume
as many `p`-characters as possible, backtracking one at a time when the
continuation fails. -/
def greedyMatch (p : Char → Bool) (k : List Char → Caps → Option Caps) :
    List Char → Caps → Option Caps
  | [], caps => k [] caps
  | c :: rest, caps =>
    if p c then
      match greedyMatch p k rest caps with
      | some r => some r
      | none => k (c :: rest) caps
    else k (c :: rest) caps

/-- Lazy star over a character class: try the continuation first, consuming a
`p`-character only when it fails. -/
def lazyMatch (p : Char → Bool) (k : List Char → Caps → Option Caps) :
    List Char → Caps → Option Caps
  | [], caps => k [] caps
  | c :: rest, caps =>
    match k (c :: rest) caps with
    | some r => some r
    | none => if p c then lazyMatch p k rest caps else none

/-- The matcher.  `matchRE r s caps k` tries to match `r` against a prefix of
`s`, extending `caps`, and calls `k` with the remaining input on success;
backtracking is realised by `k` returning `none`. -/
def matchRE : RE → List Char → Caps → (List Char → Caps → Option Caps) →
    Option Caps
  | .eps, s, caps, k => k s caps
  | .cls p, s, caps, k =>
    match s with
    | [] => none
    | c :: rest => if p c then k rest caps else none
  | .starG p, s, caps, k => greedyMatch p k s caps
  | .starL p, s, caps, k => lazyMatch p k s caps
  | .seq a b, s, caps, k => matchRE a s caps (fun s2 c2 => matchRE b s2 c2 k)
  | .alt a b, s, caps, k =>
    match matchRE a s caps k with
    | some r => some r
    | none => matchRE b s caps k
  | .group i a, s, caps, k =>
    matchRE a s caps (fun s2 c2 =>
      k s2 ((i, ⟨s.take (s.length - s2.length)⟩) :: c2))
  | .eol, s, caps, k => if s.isEmpty then k s caps else none

/-- Python `re.match(r, line)`: anchored at the start of the line, succeeds as
soon as the whole pattern matches some prefix, returning the captures. -/
def reMatch (r : RE) (s : String) : Option Caps :=
  matchRE r s.data [] (fun _ caps => some caps)

/-- `m.group(i)` for a successful match (groups in the two source patterns
always participate in the match, so the default is never exercised). -/
def capGet (caps : Caps) (i : Nat) : String :=
  ((caps.find? (fun pr => pr.1 = i)).map Prod.snd).getD ""

/-- Class of `.` (anything but a newline). -/
def reDot (c : Char) : Bool := c ≠ '\n'

/-- Class of `\d`. -/
def reDigit (c : Char) : Bool := c.isDigit

/-- Class of `\w` (ASCII word characters; the matched tokens are ASCII). -/
def reWord (c : Char) : Bool := c.isAlphanum || c = '_'

/-- Literal string pattern. -/
def reLit (s : String) : RE :=
  s.data.foldr (fun c acc => RE.seq (RE.cls (fun x => x = c)) acc) RE.eps

/-- Greedy `+` over a character class. -/
def rePlusG (p : Char → Bool) : RE := RE.seq (RE.cls p) (RE.starG p)

/-- Lazy `+?` over a character class. -/
def rePlusL (p : Char → Bool) : RE := RE.seq (RE.cls p) (RE.starL p)

/-- Sequencing of a list of patterns. -/
def reSeqs (l : List RE) : RE := l.foldr RE.seq RE.eps

/-- The title-line pattern of `_parse_agent_response`:
`-\s*(.+?)\s*\((.+?),\s*(.+?),\s*(.+?)\)\s*—\s*\$(.+?)$`. -/
def titleLineRE : RE :=
  reSeqs [reLit "-", RE.starG pyIsSpace, RE.group 1 (rePlusL reDot),
    RE.starG pyIsSpace, reLit "(", RE.group 2 (rePlusL reDot), reLit ",",
    RE.starG pyIsSpace, RE.group 3 (rePlusL reDot), reLit ",",
    RE.starG pyIsSpace, RE.group 4 (rePlusL reDot), reLit ")",
    RE.starG pyIsSpace, reLit "—", RE.starG pyIsSpace, reLit "$",
    RE.group 5 (rePlusL reDot), RE.eol]

/-- The details-line pattern of `_parse_agent_response`:
`(\d+)\s*bed\s*\|\s*(\d+(?:\.\d+)?)\s*bath\s*\|\s*.+?\|\s*(\w+)\s*\|`. -/
def detailsLineRE : RE :=
  reSeqs [RE.group 1 (rePlusG reDigit), RE.starG pyIsSpace, reLit "bed",
    RE.starG pyIsSpace, reLit "|", RE.starG pyIsSpace,
    RE.group 2 (RE.seq (rePlusG reDigit)
      (RE.alt (RE.seq (reLit ".") (rePlusG reDigit)) RE.eps)),
    RE.starG pyIsSpace, reLit "bath", RE.starG pyIsSpace, reLit "|",
    RE.starG pyIsSpace, rePlusL reDot, reLit "|", RE.starG pyIsSpace,
    RE.group 3 (rePlusG reWord), RE.starG pyIsSpace, reLit "|"]

/-! ### Metadata filter compiler (`pinecone_client.py`)

`build_metadata_filter` and `build_price_filter` construct nested Python
dictionaries in the vector store's metadata-query language.  The embedding
types the exact image of the compiler: leaves `{field: {op: value}}`, a
condition that is either a leaf or an `$and` of leaves (the shape
`build_price_filter` returns when both bounds are set), and a compiled
filter that is a single condition, an `$and` of conditions, or the empty
dictionary. -/

/-- A metadata value appearing in a filter leaf: string, integer or float. -/
inductive MVal where
  | s (v : String)
  | i (v : Int)
  | q (v : Rat)
deriving DecidableEq

/-- A filter leaf `{field: {op: value}}` with `op` one of `$eq`, `$gte`,
`$lte`, `$in`. -/
inductive Leaf where
  | eq (field : String) (v : MVal)
  | gte (field : String) (v : MVal)
  | lte (field : String) (v : MVal)
  | inL (field : String) (vs : List MVal)
deriving DecidableEq

/-- One entry of the compiler's `filter_conditions` list: a leaf, or the
two-leaf `$and` produced by `build_price_filter` when both bounds are set. -/
inductive Cond where
  | leaf (l : Leaf)
  | andL (ls : List Leaf)
deriving DecidableEq

/-- A compiled filter: one condition returned unwrapped, an `$and` of the
condition list, or the empty dictionary. -/
inductive PFilter where
  | single (c : Cond)
  | andC (cs : List Cond)
  | empty
deriving DecidableEq

/-- The keyword arguments accepted by `build_metadata_filter`.  `none` stands
for an absent key and also for a key passed as Python `None` (both behave
identically in every guard of the source). -/
structure FilterSpec where
  property_type : Option String := none
  city : Option String := none
  state : Option String := none
  neighborhood : Option String := none
  min_bedrooms : Option Int := none
  min_bathrooms : Option Rat := none
  min_price : Option Int := none
  max_price : Option Int := none
  required_amenities : Option (List String) := none
  status : Option String := none

/-- `build_price_filter`: both bounds give a two-leaf `$and`, one bound gives
a single leaf, no bounds give the empty dictionary (`none`, which the caller
drops via the `if price_filter:` truthiness test). -/
def build_price_filter (min_price max_price : Option Int) : Option Cond :=
  match min_price, max_price with
  | some a, some b =>
    some (Cond.andL [Leaf.gte "price" (MVal.i a), Leaf.lte "price" (MVal.i b)])
  | some a, none => some (Cond.leaf (Leaf.gte "price" (MVal.i a)))
  | none, some b => some (Cond.leaf (Leaf.lte "price" (MVal.i b)))
  | none, none => none

/-- Conditions contributed by a string-equality field: emitted only when the
key is present and truthy (a non-empty string). -/
def strFieldConds (field : String) (v : Option String) : List Cond :=
  match v with
  | some x => if x = "" then [] else [Cond.leaf (Leaf.eq field (MVal.s x))]
  | none => []

/-- Condition contributed by an integer minimum: emitted whenever the key is
present and not `None`, including the value `0`. -/
def intGteConds (field : String) (v : Option Int) : List Cond :=
  match v with
  | some n => [Cond.leaf (Leaf.gte field (MVal.i n))]
  | none => []

/-- Condition contributed by the float minimum `min_bathrooms`, same guard as
the integer case. -/
def ratGteConds (field : String) (v : Option Rat) : List Cond :=
  match v with
  | some x => [Cond.leaf (Leaf.gte field (MVal.q x))]
  | none => []

/-- Conditions contributed by `required_amenities`: when the key is present
and truthy (a non-empty list), one `$in` containment leaf per amenity. -/
def amenityConds (v : Option (List String)) : List Cond :=
  match v with
  | some l =>
    if l = [] then [] else l.map (fun a => Cond.leaf (Leaf.inL "amenities" [MVal.s a]))
  | none => []

/-- The unconditional status leaf, `filters.get("status", "active")`. -/
def statusCond (f : FilterSpec) : Cond :=
  Cond.leaf (Leaf.eq "status" (MVal.s (f.status.getD "active")))

/-- The `filter_conditions` list built by `build_metadata_filter`, in source
append order: property type, city, state, neighborhood, bedrooms, bathrooms,
price, amenities, and finally the unconditional status condition. -/
def filterConditions (f : FilterSpec) : List Cond :=
  strFieldConds "property_type" f.property_type ++
  strFieldConds "city" f.city ++
  strFieldConds "state" f.state ++
  strFieldConds "neighborhood" f.neighborhood ++
  intGteConds "bedrooms" f.min_bedrooms ++
  ratGteConds "bathrooms" f.min_bathrooms ++
  (build_price_filter f.min_price f.max_price).toList ++
  amenityConds f.required_amenities ++
  [statusCond f]

/-- `build_metadata_filter`: a one-element condition list is returned
unwrapped, longer lists are wrapped in `$and`, the empty list would give the
empty dictionary. -/
def build_metadata_filter (f : FilterSpec) : PFilter :=
  match filterConditions f with
  | [c] => PFilter.single c
  | [] => PFilter.empty
  | cs => PFilter.andC cs

/-- Number of `{field: {op: value}}` leaves in one condition. -/
def condLeafCount : Cond → Nat
  | .leaf _ => 1
  | .andL ls => ls.length

/-- Number of leaves in a compiled filter (counting through the nested price
`$and`). -/
def filterLeafCount : PFilter → Nat
  | .single c => condLeafCount c
  | .andC cs => (cs.map condLeafCount).sum
  | .empty => 0

/-- Claim-side count: does a string field contribute a condition (present and
non-empty)? -/
def strFieldCount (v : Option String) : Nat :=
  match v with
  | some x => if x = "" then 0 else 1
  | none => 0

/-- Claim-side count: 1 when the optional value is present. -/
def optCount {α : Type} (v : Option α) : Nat :=
  match v with
  | some _ => 1
  | none => 0

/-- Claim-side count: number of amenity containment leaves (one per amenity
when the list is present, none for an absent or empty list). -/
def amenityLeafCount (v : Option (List String)) : Nat :=
  match v with
  | some l => l.length
  | none => 0

/-- Claim-side count: does `required_amenities` count as one populated field
(present and non-empty)? -/
def amenityFieldCount (v : Option (List String)) : Nat :=
  match v with
  | some l => if l = [] then 0 else 1
  | none => 0

/-- Total number of leaves contributed by the non-status fields. -/
def nonStatusLeafCount (f : FilterSpec) : Nat :=
  strFieldCount f.property_type + strFieldCount f.city +
  strFieldCount f.state + strFieldCount f.neighborhood +
  optCount f.min_bedrooms + optCount f.min_bathrooms +
  optCount f.min_price + optCount f.max_price +
  amenityLeafCount f.required_amenities

/-- The claim's reading of the number of "non-default populated fields": one
per populated scalar field, price bound, or non-empty amenity list. -/
def populatedFieldCount (f : FilterSpec) : Nat :=
  strFieldCount f.property_type + strFieldCount f.city +
  strFieldCount f.state + strFieldCount f.neighborhood +
  optCount f.min_bedrooms + optCount f.min_bathrooms +
  optCount f.min_price + optCount f.max_price +
  amenityFieldCount f.required_amenities

/-- The non-status prefix of `filter_conditions` (everything appended before
the unconditional status condition). -/
def nonStatusConds (f : FilterSpec) : List Cond :=
  strFieldConds "property_type" f.property_type ++
  strFieldConds "city" f.city ++
  strFieldConds "state" f.state ++
  strFieldConds "neighborhood" f.neighborhood ++
  intGteConds "bedrooms" f.min_bedrooms ++
  ratGteConds "bathrooms" f.min_bathrooms ++
  (build_price_filter f.min_price f.max_price).toList ++
  amenityConds f.required_amenities

/-! ### Semantics of compiled filters

Modelled from the spec: the repository only builds the filter dictionaries;
evaluating them against a record's metadata is done by the external vector
store.  The spec describes the wire format as `{field: {operator: value}}`
leaves combined via `$and`, with `$in` as list membership, and describes the
amenity conditions as "`amenities` contains X".  The semantics below follows
those words: `$eq` compares the stored value with the leaf value (numerics
compared as numbers), `$gte`/`$lte` compare numerically, and `$in` on a
list-valued field succeeds when some stored element is among the leaf's
values. -/

/-- A metadata value stored on a record: scalar or list of strings. -/
inductive RVal where
  | s (v : String)
  | i (v : Int)
  | q (v : Rat)
  | list (vs : List String)
deriving DecidableEq

/-- A record's metadata, as an association list. -/
abbrev MetaRecord := List (String × RVal)

/-- Field lookup on a record. -/
def recGet (r : MetaRecord) (field : String) : Option RVal :=
  (r.find? (fun pr => pr.1 = field)).map Prod.snd

/-- Numeric view of a stored value. -/
def rvalAsNum : RVal → Option Rat
  | .i n => some (n : Rat)
  | .q x => some x
  | _ => none

/-- Numeric view of a leaf value. -/
def mvalAsNum : MVal → Option Rat
  | .i n => some (n : Rat)
  | .q x => some x
  | .s _ => none

/-- Modelled from the spec: equality between a stored value and a leaf value
(strings by string equality, numbers by numeric equality). -/
def rvalEqMVal (r : RVal) (m : MVal) : Bool :=
  match r, m with
  | .s a, .s b => a = b
  | .list _, _ => false
  | r, m =>
    match rvalAsNum r, mvalAsNum m with
    | some a, some b => a = b
    | _, _ => false

/-- Modelled from the spec: satisfaction of one leaf by a record. -/
def matchesLeaf (r : MetaRecord) : Leaf → Bool
  | .eq field v =>
    match recGet r field with
    | some rv => rvalEqMVal rv v
    | none => false
  | .gte field v =>
    match (recGet r field).bind rvalAsNum, mvalAsNum v with
    | some a, some b => b ≤ a
    | _, _ => false
  | .lte field v =>
    match (recGet r field).bind rvalAsNum, mvalAsNum v with
    | some a, some b => a ≤ b
    | _, _ => false
  | .inL field vs =>
    match recGet r field with
    | some (RVal.list xs) => xs.any (fun x => vs.contains (MVal.s x))
    | some rv => vs.any (fun v => rvalEqMVal rv v)
    | none => false

/-- Modelled from the spec: satisfaction of one condition. -/
def matchesCond (r : MetaRecord) : Cond → Bool
  | .leaf l => matchesLeaf r l
  | .andL ls => ls.all (matchesLeaf r)

/-- Modelled from the spec: satisfaction of a compiled filter (the empty
dictionary is always satisfied). -/
def matchesFilter (r : MetaRecord) : PFilter → Bool
  | .single c => matchesCond r c
  | .andC cs => cs.all (matchesCond r)
  | .empty => true

/-! ### Structural lemmas about the filter compiler -/

lemma filterConditions_eq (f : FilterSpec) :
    filterConditions f = nonStatusConds f ++ [statusCond f] := by
  simp [filterConditions, nonStatusConds, List.append_assoc]

lemma statusCond_mem (f : FilterSpec) : statusCond f ∈ filterConditions f := by
  simp [filterConditions]

lemma filterConditions_ne_nil (f : FilterSpec) : filterConditions f ≠ [] := by
  rw [filterConditions_eq]; simp

lemma build_single (f : FilterSpec) (c : Cond) (h : filterConditions f = [c]) :
    build_metadata_filter f = PFilter.single c := by
  unfold build_metadata_filter; rw [h]

lemma build_andC (f : FilterSpec) (h : 2 ≤ (filterConditions f).length) :
    build_metadata_filter f = PFilter.andC (filterConditions f) := by
  unfold build_metadata_filter
  cases hc : filterConditions f with
  | nil => rw [hc] at h; simp at h
  | cons a t =>
    cases t with
    | nil => rw [hc] at h; simp at h
    | cons b t2 => rfl

lemma condLeafCount_map_aux (l : List String) :
    ((l.map (fun a => Cond.leaf (Leaf.inL "amenities" [MVal.s a]))).map
      condLeafCount).sum = l.length := by
  induction l with
  | nil => simp
  | cons a t ih =>
    simp only [List.map_map, List.map_cons, List.sum_cons, List.length_cons,
      Function.comp, condLeafCount] at ih ⊢
    omega

lemma strFieldConds_count (fld : String) (v : Option String) :
    ((strFieldConds fld v).map condLeafCount).sum = strFieldCount v := by
  cases v with
  | none => simp [strFieldConds, strFieldCount]
  | some x =>
    by_cases hx : x = "" <;> simp [strFieldConds, strFieldCount, hx, condLeafCount]

lemma intGteConds_count (fld : String) (v : Option Int) :
    ((intGteConds fld v).map condLeafCount).sum = optCount v := by
  cases v <;> simp [intGteConds, optCount, condLeafCount]

lemma ratGteConds_count (fld : String) (v : Option Rat) :
    ((ratGteConds fld v).map condLeafCount).sum = optCount v := by
  cases v <;> simp [ratGteConds, optCount, condLeafCount]

lemma price_count (a b : Option Int) :
    (((build_price_filter a b).toList).map condLeafCount).sum =
      optCount a + optCount b := by
  cases a <;> cases b <;> simp [build_price_filter, optCount, condLeafCount]

lemma amenity_count (v : Option (List String)) :
    ((amenityConds v).map condLeafCount).sum = amenityLeafCount v := by
  cases v with
  | none => simp [amenityConds, amenityLeafCount]
  | some l =>
    by_cases hl : l = []
    · simp [amenityConds, amenityLeafCount, hl]
    · simp only [amenityConds, amenityLeafCount, hl, if_neg]
      exact condLeafCount_map_aux l

lemma filterLeafCount_build (f : FilterSpec) :
    filterLeafCount (build_metadata_filter f) =
      ((filterConditions f).map condLeafCount).sum := by
  cases hc : filterConditions f with
  | nil => exact absurd hc (filterConditions_ne_nil f)
  | cons a t =>
    cases t with
    | nil => rw [build_single f a hc]; simp [filterLeafCount]
    | cons b t2 =>
      rw [build_andC f (by rw [hc]; simp), hc]
      rfl

lemma strFieldConds_nil_iff (fld : String) (v : Option String) :
    strFieldConds fld v = [] ↔ strFieldCount v = 0 := by
  cases v with
  | none => simp [strFieldConds, strFieldCount]
  | some x => by_cases hx : x = "" <;> simp [strFieldConds, strFieldCount, hx]

lemma intGteConds_nil_iff (fld : String) (v : Option Int) :
    intGteConds fld v = [] ↔ optCount v = 0 := by
  cases v <;> simp [intGteConds, optCount]

lemma ratGteConds_nil_iff (fld : String) (v : Option Rat) :
    ratGteConds fld v = [] ↔ optCount v = 0 := by
  cases v <;> simp [ratGteConds, optCount]

lemma price_nil_iff (a b : Option Int) :
    (build_price_filter a b).toList = [] ↔ optCount a + optCount b = 0 := by
  cases a <;> cases b <;> simp [build_price_filter, optCount]

lemma amenity_nil_iff (v : Option (List String)) :
    amenityConds v = [] ↔ amenityLeafCount v = 0 := by
  cases v with
  | none => simp [amenityConds, amenityLeafCount]
  | some l =>
    by_cases hl : l = [] <;>
      simp [amenityConds, amenityLeafCount, hl, List.length_eq_zero]

lemma nonStatusConds_nil_iff (f : FilterSpec) :
    nonStatusConds f = [] ↔ nonStatusLeafCount f = 0 := by
  unfold nonStatusConds nonStatusLeafCount
  simp only [List.append_eq_nil, Nat.add_eq_zero]
  rw [strFieldConds_nil_iff, strFieldConds_nil_iff, strFieldConds_nil_iff,
    strFieldConds_nil_iff, intGteConds_nil_iff, ratGteConds_nil_iff,
    price_nil_iff, amenity_nil_iff]
  omega

lemma build_single_status_iff (f : FilterSpec) :
    build_metadata_filter f = PFilter.single (statusCond f) ↔
      nonStatusConds f = [] := by
  constructor
  · intro h
    rcases hc : filterConditions f with _ | ⟨a, t⟩
    · exact absurd hc (filterConditions_ne_nil f)
    · rcases t with _ | ⟨b, t2⟩
      · have hb := build_single f a hc
        rw [hb] at h
        have ha : a = statusCond f := by injection h
        have heq := filterConditions_eq f
        rw [hc, ha] at heq
        have hlen := congrArg List.length heq
        simp only [List.length_append, List.length_cons, List.length_nil,
          List.length_singleton] at hlen
        exact List.length_eq_zero.mp (by omega)
      · have hb := build_andC f (by rw [hc]; simp)
        rw [hb] at h
        exact absurd h (by simp)
  · intro h
    have hfc : filterConditions f = [statusCond f] := by
      rw [filterConditions_eq, h]; rfl
    exact build_single f _ hfc

/-- C2: every compiled filter contains a status equality condition, equal to
the given status or `"active"` when none is given, so the condition list is
never empty; a one-element condition list is returned unwrapped and a list of
two or more is wrapped in a single `$and` node. -/
theorem c2_status_condition_and_combination (f : FilterSpec) :
    Cond.leaf (Leaf.eq "status" (MVal.s (f.status.getD "active"))) ∈
      filterConditions f ∧
    filterConditions f ≠ [] ∧
    (∀ c, filterConditions f = [c] →
      build_metadata_filter f = PFilter.single c) ∧
    (2 ≤ (filterConditions f).length →
      build_metadata_filter f = PFilter.andC (filterConditions f)) ∧
    (build_metadata_filter f =
        PFilter.single
          (Cond.leaf (Leaf.eq "status" (MVal.s (f.status.getD "active")))) ∨
      ∃ cs, build_metadata_filter f = PFilter.andC cs ∧
        Cond.leaf (Leaf.eq "status" (MVal.s (f.status.getD "active"))) ∈ cs) := by
  have hmem : statusCond f ∈ filterConditions f := statusCond_mem f
  refine ⟨hmem, filterConditions_ne_nil f, build_single f, build_andC f, ?_⟩
  rcases hc : filterConditions f with _ | ⟨a, t⟩
  · exact absurd hc (filterConditions_ne_nil f)
  · rcases t with _ | ⟨b, t2⟩
    · left
      have ha : statusCond f = a := by
        rw [hc] at hmem; simpa using hmem
      rw [build_single f a hc, ← ha]
      rfl
    · right
      refine ⟨a :: b :: t2, ?_, ?_⟩
      · rw [← hc]; exact build_andC f (by rw [hc]; simp)
      · rw [hc] at hmem; exact hmem

/-- Witness for C2 at the concrete spec `city="Miami"`. -/
theorem c2_status_condition_and_combination_witness :
    build_metadata_filter { city := some "Miami" } =
      PFilter.andC (filterConditions { city := some "Miami" }) ∧
    Cond.leaf (Leaf.eq "status" (MVal.s "active")) ∈
      filterConditions ({ city := some "Miami" } : FilterSpec) :=
  ⟨(c2_status_condition_and_combination _).2.2.2.1 (by decide),
   (c2_status_condition_and_combination ({ city := some "Miami" } : FilterSpec)).1⟩

/-- C4 counterexample: the spec `city="Miami"` has exactly one non-status
populated field, yet the compiled output is a two-condition `$and`
(city plus the mandatory status condition), not that field's leaf
unwrapped. -/
theorem c4_counterexample :
    populatedFieldCount { city := some "Miami" } = 1 ∧
    build_metadata_filter { city := some "Miami" } =
      PFilter.andC [Cond.leaf (Leaf.eq "city" (MVal.s "Miami")),
        Cond.leaf (Leaf.eq "status" (MVal.s "active"))] ∧
    build_metadata_filter { city := some "Miami" } ≠
      PFilter.single (Cond.leaf (Leaf.eq "city" (MVal.s "Miami"))) := by
  refine ⟨rfl, rfl, ?_⟩
  decide

/-- C4 amended: the compiled filter always has exactly one leaf per populated
non-default scalar field, one per set price bound, one per required amenity,
plus the mandatory status leaf; the output is the unwrapped status leaf
exactly when no non-status field is populated, and is a conjunction node of
the condition list whenever at least one non-status condition is present. -/
theorem c4_leaf_count_amended (f : FilterSpec) :
    filterLeafCount (build_metadata_filter f) = nonStatusLeafCount f + 1 ∧
    (nonStatusLeafCount f = 0 ↔
      build_metadata_filter f = PFilter.single (statusCond f)) ∧
    (1 ≤ nonStatusLeafCount f →
      build_metadata_filter f = PFilter.andC (filterConditions f)) := by
  refine ⟨?_, ?_, ?_⟩
  · rw [filterLeafCount_build, filterConditions_eq]
    simp only [nonStatusConds, List.append_assoc, List.map_append,
      List.sum_append]
    rw [strFieldConds_count, strFieldConds_count, strFieldConds_count,
      strFieldConds_count, intGteConds_count, ratGteConds_count, price_count,
      amenity_count]
    simp only [List.map_cons, List.map_nil, List.sum_cons, List.sum_nil,
      statusCond, condLeafCount, nonStatusLeafCount]
    omega
  · constructor
    · intro h
      exact (build_single_status_iff f).mpr ((nonStatusConds_nil_iff f).mpr h)
    · intro h
      exact (nonStatusConds_nil_iff f).mp ((build_single_status_iff f).mp h)
  · intro h
    apply build_andC
    rw [filterConditions_eq]
    have hne : nonStatusConds f ≠ [] := by
      intro hnil
      have h0 := (nonStatusConds_nil_iff f).mp hnil
      omega
    have hpos := List.length_pos.mpr hne
    simp only [List.length_append, List.length_singleton]
    omega

/-- Spec used by the C4 witness: city plus both price bounds plus two
required amenities. -/
def c4WitnessSpec : FilterSpec :=
  { city := some "Miami", min_price := some 300000,
    max_price := some 500000, required_amenities := some ["pool", "gym"] }

/-- Witness for the amended C4 at `c4WitnessSpec`: six leaves in total and a
top-level conjunction. -/
theorem c4_leaf_count_amended_witness :
    filterLeafCount (build_metadata_filter c4WitnessSpec) = 6 ∧
    build_metadata_filter c4WitnessSpec =
      PFilter.andC (filterConditions c4WitnessSpec) :=
  ⟨(c4_leaf_count_amended c4WitnessSpec).1,
   (c4_leaf_count_amended c4WitnessSpec).2.2 (by decide)⟩

/-- C5: every amenity in a non-empty `required_amenities` list contributes its
own containment condition `amenities $in [a]` to the condition list, and the
conditions are conjoined: a record failing any single amenity containment
fails the whole compiled filter. -/
theorem c5_amenity_conditions (f : FilterSpec) (l : List String)
    (hl : f.required_amenities = some l) (hne : l ≠ []) :
    (∀ a ∈ l, Cond.leaf (Leaf.inL "amenities" [MVal.s a]) ∈
      filterConditions f) ∧
    (∀ (r : MetaRecord) (a : String), a ∈ l →
      matchesLeaf r (Leaf.inL "amenities" [MVal.s a]) = false →
      matchesFilter r (build_metadata_filter f) = false) := by
  have hmem : ∀ a ∈ l,
      Cond.leaf (Leaf.inL "amenities" [MVal.s a]) ∈ filterConditions f := by
    intro a ha
    have hpiece : Cond.leaf (Leaf.inL "amenities" [MVal.s a]) ∈
        amenityConds f.required_amenities := by
      rw [hl]
      simp only [amenityConds, if_neg hne, List.mem_map]
      exact ⟨a, ha, rfl⟩
    simp only [filterConditions, List.mem_append]
    exact Or.inl (Or.inr hpiece)
  refine ⟨hmem, ?_⟩
  intro r a ha hfalse
  have hlen : 2 ≤ (filterConditions f).length := by
    rw [filterConditions_eq]
    have h1 : nonStatusConds f ≠ [] := by
      intro hnil
      have h0 := (nonStatusConds_nil_iff f).mp hnil
      simp only [nonStatusLeafCount, hl, amenityLeafCount] at h0
      exact hne (List.length_eq_zero.mp (by omega))
    have hpos := List.length_pos.mpr h1
    simp only [List.length_append, List.length_singleton]
    omega
  rw [build_andC f hlen]
  simp only [matchesFilter]
  rw [List.all_eq_false]
  exact ⟨_, hmem a ha, by simp [matchesCond, hfalse]⟩

/-- Witness for C5: with `required_amenities=["pool","gym"]`, both containment
conditions are emitted and an active record holding only `pool` fails the
compiled filter. -/
theorem c5_amenity_conditions_witness :
    Cond.leaf (Leaf.inL "amenities" [MVal.s "pool"]) ∈
      filterConditions { required_amenities := some ["pool", "gym"] } ∧
    Cond.leaf (Leaf.inL "amenities" [MVal.s "gym"]) ∈
      filterConditions { required_amenities := some ["pool", "gym"] } ∧
    matchesFilter [("amenities", RVal.list ["pool"]), ("status", RVal.s "active")]
      (build_metadata_filter { required_amenities := some ["pool", "gym"] }) =
      false :=
  ⟨(c5_amenity_conditions _ ["pool", "gym"] rfl (by decide)).1 "pool"
      (by decide),
   (c5_amenity_conditions _ ["pool", "gym"] rfl (by decide)).1 "gym"
      (by decide),
   (c5_amenity_conditions _ ["pool", "gym"] rfl (by decide)).2
      [("amenities", RVal.list ["pool"]), ("status", RVal.s "active")] "gym"
      (by decide) (by decide)⟩

lemma eq_leaf_not_mem_strFieldConds {fld fld2 : String} {m : MVal}
    {v : Option String} (hne : fld2 ≠ fld) :
    Cond.leaf (Leaf.eq fld m) ∉ strFieldConds fld2 v := by
  cases v with
  | none => simp [strFieldConds]
  | some x =>
    by_cases hx : x = "" <;> simp [strFieldConds, hx]
    intro h
    exact absurd h.symm hne

lemma eq_leaf_not_mem_intGteConds {fld fld2 : String} {m : MVal}
    {v : Option Int} : Cond.leaf (Leaf.eq fld m) ∉ intGteConds fld2 v := by
  cases v <;> simp [intGteConds]

lemma eq_leaf_not_mem_ratGteConds {fld fld2 : String} {m : MVal}
    {v : Option Rat} : Cond.leaf (Leaf.eq fld m) ∉ ratGteConds fld2 v := by
  cases v <;> simp [ratGteConds]

lemma eq_leaf_not_mem_price {fld : String} {m : MVal} {a b : Option Int} :
    Cond.leaf (Leaf.eq fld m) ∉ (build_price_filter a b).toList := by
  cases a <;> cases b <;> simp [build_price_filter]

lemma eq_leaf_not_mem_amenities {fld : String} {m : MVal}
    {v : Option (List String)} :
    Cond.leaf (Leaf.eq fld m) ∉ amenityConds v := by
  cases v with
  | none => simp [amenityConds]
  | some l => by_cases hl : l = [] <;> simp [amenityConds, hl]

/-- C10: the emission guards differ between numeric minimums and string
equality fields.  `min_bedrooms` and `min_bathrooms` emit a range condition
whenever present (including the value 0), while a present-but-empty string for
`property_type`, `city`, `state` or `neighborhood` produces no equality
condition on that field at all. -/
theorem c10_guard_asymmetry (f : FilterSpec) :
    (∀ n : Int, f.min_bedrooms = some n →
      Cond.leaf (Leaf.gte "bedrooms" (MVal.i n)) ∈ filterConditions f) ∧
    (∀ x : Rat, f.min_bathrooms = some x →
      Cond.leaf (Leaf.gte "bathrooms" (MVal.q x)) ∈ filterConditions f) ∧
    (f.property_type = some "" →
      ∀ v, Cond.leaf (Leaf.eq "property_type" v) ∉ filterConditions f) ∧
    (f.city = some "" →
      ∀ v, Cond.leaf (Leaf.eq "city" v) ∉ filterConditions f) ∧
    (f.state = some "" →
      ∀ v, Cond.leaf (Leaf.eq "state" v) ∉ filterConditions f) ∧
    (f.neighborhood = some "" →
      ∀ v, Cond.leaf (Leaf.eq "neighborhood" v) ∉ filterConditions f) := by
  refine ⟨?_, ?_, ?_, ?_, ?_, ?_⟩
  · intro n hn
    simp only [filterConditions, List.mem_append]
    refine Or.inl (Or.inl (Or.inl (Or.inl (Or.inr ?_))))
    simp [intGteConds, hn]
  · intro x hx
    simp only [filterConditions, List.mem_append]
    refine Or.inl (Or.inl (Or.inl (Or.inr ?_)))
    simp [ratGteConds, hx]
  all_goals
    intro hfld v hmem
    simp only [filterConditions, List.mem_append, List.mem_singleton] at hmem
    rcases hmem with
      ((((((((h | h) | h) | h) | h) | h) | h) | h) | h)
  all_goals
    first
    | exact eq_leaf_not_mem_strFieldConds (by decide) h
    | · rw [hfld] at h
        simp [strFieldConds] at h
    | exact eq_leaf_not_mem_intGteConds h
    | exact eq_leaf_not_mem_ratGteConds h
    | exact eq_leaf_not_mem_price h
    | exact eq_leaf_not_mem_amenities h
    | · simp only [statusCond] at h
        simp at h

/-- Spec used by the C10 witness: zero-valued minimums and present-but-empty
string fields. -/
def c10WitnessSpec : FilterSpec :=
  { property_type := some "", city := some "", state := some "",
    neighborhood := some "", min_bedrooms := some 0, min_bathrooms := some 0 }

/-- Witness for C10: with minimums present at 0 and empty strings for the four
equality fields, the range conditions are emitted and no equality condition on
those fields appears. -/
theorem c10_guard_asymmetry_witness :
    Cond.leaf (Leaf.gte "bedrooms" (MVal.i 0)) ∈
      filterConditions c10WitnessSpec ∧
    Cond.leaf (Leaf.gte "bathrooms" (MVal.q 0)) ∈
      filterConditions c10WitnessSpec ∧
    Cond.leaf (Leaf.eq "city" (MVal.s "")) ∉
      filterConditions c10WitnessSpec ∧
    Cond.leaf (Leaf.eq "property_type" (MVal.s "")) ∉
      filterConditions c10WitnessSpec :=
  ⟨(c10_guard_asymmetry c10WitnessSpec).1 0 rfl,
   (c10_guard_asymmetry c10WitnessSpec).2.1 0 rfl,
   (c10_guard_asymmetry c10WitnessSpec).2.2.2.1 rfl (MVal.s ""),
   (c10_guard_asymmetry c10WitnessSpec).2.2.1 rfl (MVal.s "")⟩

/-! ### Judge output parser (`evaluator.py`, `_parse_evaluation`) -/

/-- The three fields extracted from a judge response. -/
structure EvalParsed where
  accuracy : Rat
  is_correct : Bool
  reasoning : String
deriving DecidableEq

/-- The line loop of `_parse_evaluation`, in the exception monad: a malformed
`ACCURACY:` payload raises out of the loop (Python `float` raising
`ValueError`), any other line either updates one field or is ignored. -/
def parseEvalLoop : List String → Rat → Bool → String →
    Except String (Rat × Bool × String)
  | [], a, b, r => .ok (a, b, r)
  | line :: rest, a, b, r =>
    let l := pyStrip line
    if pyStartsWith l "ACCURACY:" then
      match pyFloat (pyStrip (pyAfterColon l)) with
      | .ok v => parseEvalLoop rest v b r
      | .error e => .error e
    else if pyStartsWith l "IS_CORRECT:" then
      parseEvalLoop rest a (pyLower (pyStrip (pyAfterColon l)) == "true") r
    else if pyStartsWith l "REASONING:" then
      parseEvalLoop rest a b (pyStrip (pyAfterColon l))
    else
      parseEvalLoop rest a b r

/-- `_parse_evaluation`: strip the whole text, split on newlines, scan the
lines starting from the defaults; the surrounding `except` converts any raise
into the all-default record with a parse-error reasoning. -/
def parseEvaluation (text : String) : EvalParsed :=
  match parseEvalLoop (pySplitLines (pyStrip text)) 0 false "" with
  | .ok (a, b, r) => ⟨a, b, r⟩
  | .error e => ⟨0, false, "Parse error: " ++ e⟩

/-- The amended-claim reference scanner: same prefix scan written as a total
early-return fold — a missing line leaves its field at the default, a
malformed `ACCURACY:` payload immediately yields the all-default record with
a parse-error reasoning, and no exception can escape. -/
def specParseScan : List String → EvalParsed → EvalParsed
  | [], st => st
  | line :: rest, st =>
    let l := pyStrip line
    if pyStartsWith l "ACCURACY:" then
      match pyFloat (pyStrip (pyAfterColon l)) with
      | .ok v => specParseScan rest { st with accuracy := v }
      | .error e =>
        { accuracy := 0, is_correct := false,
          reasoning := "Parse error: " ++ e }
    else if pyStartsWith l "IS_CORRECT:" then
      specParseScan rest
        { st with is_correct := pyLower (pyStrip (pyAfterColon l)) == "true" }
    else if pyStartsWith l "REASONING:" then
      specParseScan rest { st with reasoning := pyStrip (pyAfterColon l) }
    else
      specParseScan rest st

/-- Reference version of `_parse_evaluation` following the amended claim. -/
def specParseEvaluation (text : String) : EvalParsed :=
  specParseScan (pySplitLines (pyStrip text)) ⟨0, false, ""⟩

lemma parseEvalLoop_eq_specParseScan (lines : List String) :
    ∀ a b r,
      (match parseEvalLoop lines a b r with
       | .ok (x, y, z) => (⟨x, y, z⟩ : EvalParsed)
       | .error e => ⟨0, false, "Parse error: " ++ e⟩) =
        specParseScan lines ⟨a, b, r⟩ := by
  induction lines with
  | nil => intro a b r; rfl
  | cons line rest ih =>
    intro a b r
    simp only [parseEvalLoop, specParseScan]
    by_cases h1 : pyStartsWith (pyStrip line) "ACCURACY:" = true
    · simp only [h1, if_true]
      cases hv : pyFloat (pyStrip (pyAfterColon (pyStrip line))) with
      | ok v => exact ih v b r
      | error e => rfl
    · simp only [eq_false_of_ne_true h1, if_false]
      by_cases h2 : pyStartsWith (pyStrip line) "IS_CORRECT:" = true
      · simp only [h2, if_true]
        exact ih a _ r
      · simp only [eq_false_of_ne_true h2, if_false]
        by_cases h3 : pyStartsWith (pyStrip line) "REASONING:" = true
        · simp only [h3, if_true]
          exact ih a b _
        · simp only [eq_false_of_ne_true h3, if_false]
          exact ih a b r

/-- C9 counterexample: in `"ACCURACY: abc\nIS_CORRECT: True\nREASONING:
good"` the `IS_CORRECT:` and `REASONING:` lines are present and well-formed,
yet the malformed `ACCURACY:` payload causes the parser to return every field
at its default with a parse-error reasoning — it does not keep
`is_correct=true` and `reasoning="good"` as the claim requires.  The third
conjunct shows the same well-formed lines do parse when the malformed line is
absent. -/
theorem c9_parse_eval_counterexample :
    parseEvaluation "ACCURACY: abc\nIS_CORRECT: True\nREASONING: good" =
      { accuracy := 0, is_correct := false,
        reasoning := "Parse error: could not convert string to float: abc" } ∧
    pySplitLines
        (pyStrip "ACCURACY: abc\nIS_CORRECT: True\nREASONING: good") =
      ["ACCURACY: abc", "IS_CORRECT: True", "REASONING: good"] ∧
    parseEvaluation "IS_CORRECT: True\nREASONING: good" =
      { accuracy := 0, is_correct := true, reasoning := "good" } := by
  decide

/-- C9 amended: the judge-response parser scans stripped lines for the three
case-sensitive prefixes, later occurrences overwriting earlier ones; a
missing line leaves that field at its default (`accuracy=0.0`,
`is_correct=False`, `reasoning=""`); a malformed `IS_CORRECT:` payload
simply reads as `False`; but the first `ACCURACY:` line whose payload does
not parse as a float aborts the scan and yields all fields at their defaults
with `reasoning` replaced by a parse-error message, regardless of other
well-formed lines; the parser itself never raises.  This behaviour is
captured by the total reference scanner `specParseEvaluation`. -/
theorem c9_parse_eval_amended (text : String) :
    parseEvaluation text = specParseEvaluation text := by
  unfold parseEvaluation specParseEvaluation
  exact parseEvalLoop_eq_specParseScan _ 0 false ""

/-! ### Pipeline data model (`performance_pipeline.py`)

`CatalogProp` flattens a `PropertyListing` (title, description, and the
metadata fields the evaluation pipeline reads); the fixture catalog built by
`create_sample_properties` is out of the evaluation core (the spec treats
sample data generation as an external collaborator) and is passed in as a
parameter. -/

/-- One catalog property, restricted to the fields the pipeline reads. -/
structure CatalogProp where
  property_id : String
  title : String
  description : String
  price : Int
  bedrooms : Int
  bathrooms : Rat
  city : String
  state : String
  property_type : String
  amenities : List String
deriving DecidableEq

/-- The dictionary accumulated by `_parse_agent_response`: the six keys set at
a title line are always present, the three keys set at a details line are
optional. -/
structure ParsedProp where
  title : String
  city : String
  state : String
  neighborhood : String
  price : Int
  property_id : String
  bedrooms : Option Int := none
  bathrooms : Option Rat := none
  property_type : Option String := none
deriving DecidableEq

/-- The dictionary built by `_metadata_only_search` for each hit. -/
structure MetaRow where
  property_id : String
  title : String
  price : Int
  bedrooms : Int
  bathrooms : Rat
  city : String
  state : String
deriving DecidableEq

/-- A search result row: metadata-only hit or parsed agent response row. -/
inductive SearchRow where
  | md (r : MetaRow)
  | parsed (p : ParsedProp)
deriving DecidableEq

/-- Both row shapes carry a `property_id` key. -/
def rowPropertyId : SearchRow → String
  | .md r => r.property_id
  | .parsed p => p.property_id

/-- `_find_matching_property_id`: linear scan returning the first catalog
entry whose title and city match case-insensitively and whose price matches
exactly. -/
def findMatchingPropertyId (catalog : List CatalogProp) (p : ParsedProp) :
    Option String :=
  match catalog with
  | [] => none
  | c :: rest =>
    if pyLower c.title == pyLower p.title &&
        pyLower c.city == pyLower p.city && c.price == p.price then
      some c.property_id
    else
      findMatchingPropertyId rest p

/-- The `matched_id` assignment in `_parse_agent_response`: Python only
assigns when `matched_id` is truthy, so an empty-string id would be
dropped. -/
def applyIdMatch (catalog : List CatalogProp) (p : ParsedProp) : ParsedProp :=
  match findMatchingPropertyId catalog p with
  | some id => if id = "" then p else { p with property_id := id }
  | none => p

/-- The line loop of `_parse_agent_response`, in the exception monad (the
`int` conversion of the price capture can raise, which makes the whole parse
return `[]`).  A title line flushes the current record and opens a new one;
a details line updates the open record and resolves the property id; other
lines are ignored. -/
def parseLoop (catalog : List CatalogProp) :
    List String → Option ParsedProp → List ParsedProp →
    Except String (List ParsedProp)
  | [], cur, acc =>
    match cur with
    | some p => .ok (acc ++ [p])
    | none => .ok acc
  | line :: rest, cur, acc =>
    let l := pyStrip line
    match reMatch titleLineRE l with
    | some caps => do
      let acc2 :=
        match cur with
        | some p => acc ++ [p]
        | none => acc
      let price ←
        pyInt (pyReplace (pyReplace (capGet caps 5) "," "") ".0" "")
      parseLoop catalog rest
        (some { title := pyStrip (capGet caps 1),
                city := pyStrip (capGet caps 3),
                state := pyStrip (capGet caps 4),
                neighborhood := pyStrip (capGet caps 2),
                price := price,
                property_id := "UNKNOWN" }) acc2
    | none =>
      match reMatch detailsLineRE l, cur with
      | some caps, some p => do
        let beds ← pyInt (capGet caps 1)
        let baths ← pyFloat (capGet caps 2)
        let p2 :=
          { p with bedrooms := some beds, bathrooms := some baths,
                   property_type := some (pyLower (capGet caps 3)) }
        parseLoop catalog rest (some (applyIdMatch catalog p2)) acc
      | _, _ => parseLoop catalog rest cur acc

/-- `_parse_agent_response`: split on newlines, run the line loop, and map
any raise to the empty list (the surrounding `except`). -/
def parseAgentResponse (catalog : List CatalogProp) (text : String) :
    List ParsedProp :=
  match parseLoop catalog (pySplitLines text) none [] with
  | .ok props => props
  | .error _ => []

/-- Projection of a catalog property to a metadata-search result row. -/
def metadataRowOf (p : CatalogProp) : MetaRow :=
  { property_id := p.property_id, title := p.title, price := p.price,
    bedrooms := p.bedrooms, bathrooms := p.bathrooms, city := p.city,
    state := p.state }

/-- `_metadata_only_search`: lower-case the query, split into words, scan the
first 10 catalog records and keep those whose lower-cased title-plus-
description contains any query word as a substring. -/
def metadataOnlySearch (catalog : List CatalogProp) (query : String) :
    List MetaRow :=
  let queryWords := pySplitWS (pyLower query)
  (catalog.take 10).filterMap (fun prop =>
    let titleDesc := pyLower (prop.title ++ " " ++ prop.description)
    if queryWords.any (fun w => pySubstr w titleDesc) then
      some (metadataRowOf prop)
    else none)

/-- `_get_properties_by_ids`: catalog entries whose id is among the expected
ids, in catalog order (the source projects them to dictionaries carrying the
same fields). -/
def getPropertiesByIds (catalog : List CatalogProp) (ids : List String) :
    List CatalogProp :=
  catalog.filter (fun p => ids.contains p.property_id)

/-! ### Judge wrapper (`evaluator.py`)

The prompt strings below mirror the source templates; numeric rendering
approximates CPython formatting (thousands separators via `renderIntComma`,
float display via `renderRat`).  Prompt text only ever flows into the
judge oracle, which every theorem quantifies over, so none of the statements
depend on its exact rendering. -/

/-- Digit grouping scan for `renderIntComma` (input reversed digits). -/
def commaGroupGo : Nat → List Char → List Char
  | _, [] => []
  | 0, c :: rest => ',' :: c :: commaGroupGo 2 rest
  | Nat.succ k, c :: rest => c :: commaGroupGo k rest

/-- Python `f"{n:,}"`: decimal digits with thousands separators. -/
def renderIntComma (n : Int) : String :=
  (if n < 0 then "-" else "") ++
    ⟨(commaGroupGo 3 (toString n.natAbs).data.reverse).reverse⟩

/-- Python `str(int)`. -/
def renderInt (n : Int) : String := toString n

/-- Display of a float value inside prompts (approximates CPython float
repr: integral values print with a trailing `.0`). -/
def renderRat (x : Rat) : String :=
  if x.den = 1 then toString x.num ++ ".0"
  else toString x.num ++ "/" ++ toString x.den

/-- Python `str` of a list of strings (single-quoted items). -/
def renderStrList (l : List String) : String :=
  "[" ++ String.intercalate ", " (l.map (fun s => "\x27" ++ s ++ "\x27")) ++ "]"

/-- `_get_system_prompt` of the judge. -/
def evaluatorSystemPrompt : String :=
  "You are an expert real estate evaluator. Your job is to assess whether a property search agent returned the correct properties for a given query.\n\nEvaluate based on:\n1. Did the agent return properties that match the user\x27s requirements?\n2. Are the returned properties relevant to the search criteria?\n3. Did the agent miss any obvious matches?\n\nRespond in this exact format:\nACCURACY: [0.0 to 1.0]\nIS_CORRECT: [True/False]\nREASONING: [Brief explanation of why the results are correct/incorrect]\n\nBe strict but fair in your evaluation."

/-- `_format_expected_properties`. -/
def formatExpectedProperties (ids : List String) (data : List CatalogProp) :
    String :=
  let formatted := (data.filter (fun p => ids.contains p.property_id)).map
    (fun p =>
      "- " ++ p.property_id ++ ": " ++ p.title ++ " ($" ++
        renderIntComma p.price ++ ", " ++ renderInt p.bedrooms ++ "BR/" ++
        renderRat p.bathrooms ++ "BA, " ++ p.city ++ ", " ++ p.state ++ ")")
  if formatted = [] then "No expected properties"
  else String.intercalate "\n" formatted

/-- Per-row rendering of `_format_agent_results` (dictionary `get` with
`Unknown` defaults for the keys a parsed row may lack). -/
def formatAgentRow : SearchRow → String
  | .md r =>
    "- " ++ r.property_id ++ ": " ++ r.title ++ " (" ++ renderInt r.price ++
      ", " ++ renderInt r.bedrooms ++ "BR/" ++ renderRat r.bathrooms ++
      "BA, " ++ r.city ++ ", " ++ r.state ++ ")"
  | .parsed p =>
    "- " ++ p.property_id ++ ": " ++ p.title ++ " (" ++ renderInt p.price ++
      ", " ++ ((p.bedrooms.map renderInt).getD "Unknown") ++ "BR/" ++
      ((p.bathrooms.map renderRat).getD "Unknown") ++ "BA, " ++ p.city ++
      ", " ++ p.state ++ ")"

/-- `_format_agent_results`: at most the first five rows. -/
def formatAgentResults (rows : List SearchRow) : String :=
  if rows = [] then "No properties returned"
  else String.intercalate "\n" ((rows.take 5).map formatAgentRow)

/-- `_create_evaluation_prompt`. -/
def createEvaluationPrompt (query : String) (rids eids : List String)
    (data : List CatalogProp) (rows : List SearchRow) : String :=
  "\nUSER QUERY: \"" ++ query ++ "\"\n\nEXPECTED PROPERTIES (Ground Truth):\n"
    ++ formatExpectedProperties eids data ++
    "\n\nAGENT RETURNED PROPERTIES:\n" ++ formatAgentResults rows ++
    "\n\nRETURNED PROPERTY IDS: " ++ renderStrList rids ++
    "\nEXPECTED PROPERTY IDS: " ++ renderStrList eids ++
    "\n\nPlease evaluate if the agent\x27s results correctly match the user\x27s query requirements.\n"

/-- An evaluation record as a partial dictionary: `accuracy` and `is_correct`
are present in every record the pipeline produces; the remaining keys depend
on the path taken. -/
structure EvalOut where
  accuracy : Rat
  is_correct : Bool
  reasoning : Option String := none
  error : Option String := none
  query : Option String := none
  returned_property_ids : Option (List String) := none
  expected_property_ids : Option (List String) := none
  evaluation_text : Option String := none
  latency_ms : Option Rat := none
  configuration : Option String := none
deriving DecidableEq

/-- Returned-id extraction in `evaluate_search_results`: every row dictionary
carries a `property_id` key, so the first `isinstance` branch applies to each
row. -/
def extractReturnedIds (rows : List SearchRow) : List String :=
  rows.map rowPropertyId

/-- `evaluate_search_results` with the judge language model as an oracle
(`llm system user` returns the completion text or raises): the whole body is
wrapped in `try`, so a raising judge call produces the zero/false record
carrying the error text, and a successful call produces the parsed judgment
plus the echoed fields. -/
def evaluateSearchResults (llm : String → String → Except String String)
    (query : String) (rows : List SearchRow) (expIds : List String)
    (expData : List CatalogProp) : EvalOut :=
  let rids := extractReturnedIds rows
  match llm evaluatorSystemPrompt
      (createEvaluationPrompt query rids expIds expData rows) with
  | .ok txt =>
    let pe := parseEvaluation txt
    { accuracy := pe.accuracy, is_correct := pe.is_correct,
      reasoning := some pe.reasoning, query := some query,
      returned_property_ids := some rids,
      expected_property_ids := some expIds, evaluation_text := some txt }
  | .error e => { accuracy := 0, is_correct := false, error := some e }

/-! ### Configurations, fixed queries, and the pipeline -/

/-- `TestConfiguration` dataclass. -/
structure TestConfiguration where
  name : String
  use_vectors : Bool
  use_searchable_content : Bool
  use_amenities_filter : Bool
  description : String
deriving DecidableEq

/-- The 8 fixed test configurations. -/
def TEST_CONFIGURATIONS : List TestConfiguration :=
  [⟨"NoVectors_NoSearchable_NoAmenities", false, false, false,
    "No vectorization, description only, no amenity filtering"⟩,
   ⟨"NoVectors_NoSearchable_WithAmenities", false, false, true,
    "No vectorization, description only, with amenity filtering"⟩,
   ⟨"NoVectors_WithSearchable_NoAmenities", false, true, false,
    "No vectorization, searchable content, no amenity filtering"⟩,
   ⟨"NoVectors_WithSearchable_WithAmenities", false, true, true,
    "No vectorization, searchable content, with amenity filtering"⟩,
   ⟨"WithVectors_NoSearchable_NoAmenities", true, false, false,
    "With vectorization, description only, no amenity filtering"⟩,
   ⟨"WithVectors_NoSearchable_WithAmenities", true, false, true,
    "With vectorization, description only, with amenity filtering"⟩,
   ⟨"WithVectors_WithSearchable_NoAmenities", true, true, false,
    "With vectorization, searchable content, no amenity filtering"⟩,
   ⟨"WithVectors_WithSearchable_WithAmenities", true, true, true,
    "With vectorization, searchable content, with amenity filtering"⟩]

/-- A ground-truth test case (`test_queries.py`). -/
structure TestQuery where
  query : String
  expected_properties : List String
  description : String
deriving DecidableEq

/-- The 10 fixed test queries. -/
def TEST_QUERIES : List TestQuery :=
  [⟨"I want a luxury condo in Miami with ocean views and pool", ["PROP_001"],
    "Should find the Miami Beach waterfront condo with pool and ocean views"⟩,
   ⟨"Family house with 4 bedrooms under 500k", ["PROP_002", "PROP_010"],
    "Should find family homes with 4+ bedrooms under $500k"⟩,
   ⟨"Studio apartment in Manhattan for under 350k", ["PROP_003"],
    "Should find the Manhattan studio in Chelsea"⟩,
   ⟨"Townhouse in San Francisco with fireplace", ["PROP_004"],
    "Should find the luxury townhouse in Nob Hill with fireplace"⟩,
   ⟨"Pet friendly apartment in Denver with balcony", ["PROP_005"],
    "Should find the Capitol Hill apartment that allows pets"⟩,
   ⟨"Beachfront house in California over 2 million", ["PROP_006"],
    "Should find the expensive beachfront property in La Jolla"⟩,
   ⟨"High rise condo in Chicago with gym access", ["PROP_007"],
    "Should find the River North condo with gym amenities"⟩,
   ⟨"Historic house in Portland with original hardwood floors", ["PROP_008"],
    "Should find the vintage cottage in Alberta neighborhood"⟩,
   ⟨"Modern loft in Brooklyn with exposed brick", ["PROP_009"],
    "Should find the industrial loft in Williamsburg"⟩,
   ⟨"Properties with pools in warm climates",
    ["PROP_001", "PROP_006", "PROP_010"],
    "Should find multiple properties with pools in FL, CA, and AZ"⟩]

/-- `get_test_queries`. -/
def get_test_queries : List TestQuery := TEST_QUERIES

/-! ### Timing model

`measure_latency` reads the wall clock immediately before and after the
search-function call, so the reported latency is the wall time spent inside
that call and nothing else.  The embedding makes this explicit: every search
function returns, along with its result, the wall time its execution
consumes, built from the abstract durations of the work it performs — the
agent round trip (`agentTime`), the pure parsing/matching work on the
response (`parseTime`), or the metadata keyword scan (`mdTime`).  Work
performed outside the timed call (expected-property lookup, judging) does not
contribute to the measured value, exactly as in the source. -/

/-- External environment of one pipeline run: the agent and judge oracles and
the abstract durations of the work done inside search calls. -/
structure Env where
  agent : String → Except String String
  agentTime : String → Rat
  parseTime : String → Rat
  mdTime : String → Rat
  llm : String → String → Except String String

/-- `_vector_search_with_searchable_content`: agent round trip, then response
parsing (which includes property-id matching); both happen inside the
function, hence inside the timed region. -/
def vectorSearchWithSearchableContent (catalog : List CatalogProp) (env : Env)
    (q : String) : Except String (List SearchRow × Rat) := do
  let txt ← env.agent q
  pure ((parseAgentResponse catalog txt).map SearchRow.parsed,
    env.agentTime q + env.parseTime txt)

/-- `_vector_search_description_only`: the source body is identical to the
searchable-content variant. -/
def vectorSearchDescriptionOnly (catalog : List CatalogProp) (env : Env)
    (q : String) : Except String (List SearchRow × Rat) := do
  let txt ← env.agent q
  pure ((parseAgentResponse catalog txt).map SearchRow.parsed,
    env.agentTime q + env.parseTime txt)

/-- `_metadata_only_search` as a timed search function (pure, never
raises). -/
def metadataOnlySearchTimed (catalog : List CatalogProp) (env : Env)
    (q : String) : Except String (List SearchRow × Rat) :=
  .ok ((metadataOnlySearch catalog q).map SearchRow.md, env.mdTime q)

/-- `_create_search_function`. -/
def createSearchFunction (catalog : List CatalogProp) (env : Env)
    (config : TestConfiguration) :
    String → Except String (List SearchRow × Rat) :=
  if !config.use_vectors then
    metadataOnlySearchTimed catalog env
  else if config.use_searchable_content then
    vectorSearchWithSearchableContent catalog env
  else
    vectorSearchDescriptionOnly catalog env

/-- `measure_latency`: runs the function and returns its result together with
the wall time consumed inside the call (the second component). -/
def measureLatency (f : String → Except String (List SearchRow × Rat))
    (q : String) : Except String (List SearchRow × Rat) :=
  f q

/-- The `try` body of one (configuration, query) cell of
`_test_configuration`. -/
def cellTry (catalog : List CatalogProp) (env : Env)
    (config : TestConfiguration) (tc : TestQuery) : Except String EvalOut := do
  let sf := createSearchFunction catalog env config
  let (rows, lat) ← measureLatency sf tc.query
  let expData := getPropertiesByIds catalog tc.expected_properties
  let ev := evaluateSearchResults env.llm tc.query rows
    tc.expected_properties expData
  pure { ev with latency_ms := some lat, configuration := some config.name }

/-- The record appended by the per-query `except` handler. -/
def errorRecord (e : String) (configName : String) : EvalOut :=
  { accuracy := 0, is_correct := false, latency_ms := some 0,
    error := some e, configuration := some configName }

/-- One cell of `_test_configuration`, with the per-query exception
handler. -/
def testQueryCell (catalog : List CatalogProp) (env : Env)
    (config : TestConfiguration) (tc : TestQuery) : EvalOut :=
  match cellTry catalog env config tc with
  | .ok r => r
  | .error e => errorRecord e config.name

/-- `_test_configuration`: all fixed queries against one configuration. -/
def test_configuration (catalog : List CatalogProp) (env : Env)
    (config : TestConfiguration) : List EvalOut :=
  TEST_QUERIES.map (testQueryCell catalog env config)

/-- The `all_results` dictionary built by `run_full_evaluation` (insertion
order preserved, as in a Python dict). -/
def run_full_evaluation_results (catalog : List CatalogProp) (env : Env) :
    List (String × List EvalOut) :=
  TEST_CONFIGURATIONS.map
    (fun config => (config.name, test_configuration catalog env config))

/-! ### Metrics aggregation (`metrics.py`) -/

/-- One per-configuration summary. -/
structure Summary where
  accuracy : Rat
  correctness_rate : Rat
  avg_latency_ms : Rat
  total_queries : Nat
deriving DecidableEq

/-- `calculate_accuracy`: mean of the accuracy values (0 on an empty
list). -/
def calculate_accuracy (evals : List EvalOut) : Rat :=
  if evals = [] then 0
  else (evals.map (fun e => e.accuracy)).sum / (evals.length : Rat)

/-- `calculate_correctness_rate`: fraction of records with
`is_correct`. -/
def calculate_correctness_rate (evals : List EvalOut) : Rat :=
  if evals = [] then 0
  else ((evals.filter (fun e => e.is_correct)).length : Rat) /
    (evals.length : Rat)

/-- `compile_results`: per-configuration summaries, zeros for an empty
evaluation list; `latency_ms` is read with a `get` defaulting to 0. -/
def compile_results (configuration_results : List (String × List EvalOut)) :
    List (String × Summary) :=
  configuration_results.map (fun pr =>
    (pr.1,
     if pr.2 ≠ [] then
       { accuracy := calculate_accuracy pr.2,
         correctness_rate := calculate_correctness_rate pr.2,
         avg_latency_ms :=
           (pr.2.map (fun e => e.latency_ms.getD 0)).sum /
             (pr.2.length : Rat),
         total_queries := pr.2.length }
     else
       { accuracy := 0, correctness_rate := 0, avg_latency_ms := 0,
         total_queries := 0 }))

/-- `run_full_evaluation`: run all configurations and compile the summary
(report printing and JSON export are output-only side effects). -/
def run_full_evaluation (catalog : List CatalogProp) (env : Env) :
    List (String × Summary) :=
  compile_results (run_full_evaluation_results catalog env)

lemma createSearchFunction_vector (catalog : List CatalogProp) (env : Env)
    (config : TestConfiguration) (q : String)
    (hv : config.use_vectors = true) :
    createSearchFunction catalog env config q =
      vectorSearchWithSearchableContent catalog env q := by
  unfold createSearchFunction
  rw [hv]
  by_cases hs : config.use_searchable_content = true
  · simp [hs]
  · simp only [eq_false_of_ne_true hs, Bool.not_true, Bool.false_eq_true,
      if_false, if_true]
    rfl

/-- C6: when `use_vectors` is set, the `use_searchable_content` flag does not
change which search function runs — the selected function and the
description-only variant compute identical results for every environment and
query; the flag only changes the configuration's logged name. -/
theorem c6_vector_branches_equal (catalog : List CatalogProp) (env : Env)
    (config : TestConfiguration) (q : String)
    (hv : config.use_vectors = true) :
    createSearchFunction catalog env config q =
      vectorSearchWithSearchableContent catalog env q ∧
    vectorSearchWithSearchableContent catalog env q =
      vectorSearchDescriptionOnly catalog env q :=
  ⟨createSearchFunction_vector catalog env config q hv, rfl⟩

/-- Environment used by the C6 witness (oracles that ignore their
arguments). -/
def c6WitnessEnv : Env :=
  { agent := fun _ => .ok "A", agentTime := fun _ => 1,
    parseTime := fun _ => 1, mdTime := fun _ => 1,
    llm := fun _ _ => .error "down" }

/-- Witness for C6 at the `WithVectors_NoSearchable_NoAmenities`
configuration. -/
theorem c6_vector_branches_equal_witness :
    createSearchFunction [] c6WitnessEnv
      ⟨"WithVectors_NoSearchable_NoAmenities", true, false, false,
        "With vectorization, description only, no amenity filtering"⟩ "q" =
      vectorSearchDescriptionOnly [] c6WitnessEnv "q" := by
  have h := c6_vector_branches_equal [] c6WitnessEnv
    ⟨"WithVectors_NoSearchable_NoAmenities", true, false, false,
      "With vectorization, description only, no amenity filtering"⟩ "q" rfl
  exact h.1.trans h.2

lemma testQueryCell_latency (catalog : List CatalogProp) (env : Env)
    (config : TestConfiguration) (tc : TestQuery) :
    (testQueryCell catalog env config tc).latency_ms =
      if config.use_vectors = false then some (env.mdTime tc.query)
      else
        match env.agent tc.query with
        | .ok txt => some (env.agentTime tc.query + env.parseTime txt)
        | .error _ => some 0 := by
  by_cases hv : config.use_vectors = true
  · have hsel : ∀ q, createSearchFunction catalog env config q =
        vectorSearchWithSearchableContent catalog env q := by
      intro q
      exact createSearchFunction_vector catalog env config q hv
    simp only [hv, Bool.true_eq_false, if_false]
    cases ha : env.agent tc.query with
    | ok txt =>
      simp [testQueryCell, cellTry, measureLatency, hsel,
        vectorSearchWithSearchableContent, ha, Except.bind, bind, pure,
        Except.pure]
    | error e =>
      simp [testQueryCell, cellTry, measureLatency, hsel,
        vectorSearchWithSearchableContent, ha, Except.bind, bind, pure,
        Except.pure, errorRecord]
  · simp only [eq_false_of_ne_true hv, if_true]
    simp [testQueryCell, cellTry, measureLatency, createSearchFunction,
      eq_false_of_ne_true hv, metadataOnlySearchTimed, Except.bind, bind,
      pure, Except.pure]

/-- Environment A for the C3 counterexample: the agent answers instantly
parsed text in 5 units of wall time and parsing is free. -/
def c3EnvA : Env :=
  { agent := fun _ => .ok "A", agentTime := fun _ => 5,
    parseTime := fun _ => 0, mdTime := fun _ => 0,
    llm := fun _ _ => .error "judge down" }

/-- Environment B for the C3 counterexample: identical to `c3EnvA` except
that parsing the response consumes 3 units of wall time. -/
def c3EnvB : Env :=
  { agent := fun _ => .ok "A", agentTime := fun _ => 5,
    parseTime := fun _ => 3, mdTime := fun _ => 0,
    llm := fun _ _ => .error "judge down" }

/-- Vector configuration used by the C3 theorems. -/
def c3Config : TestConfiguration :=
  ⟨"WithVectors_NoSearchable_NoAmenities", true, false, false,
    "With vectorization, description only, no amenity filtering"⟩

/-- C3 counterexample: two runs whose agent, agent duration, metadata-scan
duration and judge are identical, differing only in how long response parsing
takes, report different `latency_ms` on a vector configuration (5 versus 8):
the timed search call includes the parsing work, so latency does not exclude
parsing for vector-search configurations. -/
theorem c3_latency_counterexample :
    c3EnvA.agent = c3EnvB.agent ∧
    c3EnvA.agentTime = c3EnvB.agentTime ∧
    c3EnvA.mdTime = c3EnvB.mdTime ∧
    c3EnvA.llm = c3EnvB.llm ∧
    (testQueryCell [] c3EnvA c3Config ⟨"q", [], "d"⟩).latency_ms = some 5 ∧
    (testQueryCell [] c3EnvB c3Config ⟨"q", [], "d"⟩).latency_ms = some 8 ∧
    (some (5 : Rat) : Option Rat) ≠ some 8 := by
  refine ⟨rfl, rfl, rfl, rfl, ?_, ?_, by norm_num⟩ <;>
    · rw [testQueryCell_latency]
      norm_num [c3Config, c3EnvA, c3EnvB]

/-- C3 amended: `latency_ms` is the wall time of exactly the search-function
call — the metadata scan for non-vector configurations, and the agent round
trip plus response parsing (with property-id matching) for vector
configurations; work performed after the timed call, in particular judging,
never affects it. -/
theorem c3_latency_formula (catalog : List CatalogProp) (env : Env)
    (config : TestConfiguration) (tc : TestQuery) :
    (config.use_vectors = false →
      (testQueryCell catalog env config tc).latency_ms =
        some (env.mdTime tc.query)) ∧
    (∀ txt, config.use_vectors = true → env.agent tc.query = .ok txt →
      (testQueryCell catalog env config tc).latency_ms =
        some (env.agentTime tc.query + env.parseTime txt)) ∧
    (∀ llm2,
      (testQueryCell catalog
        { env with llm := llm2 } config tc).latency_ms =
      (testQueryCell catalog env config tc).latency_ms) := by
  refine ⟨?_, ?_, ?_⟩
  · intro hv
    rw [testQueryCell_latency, hv]
    rfl
  · intro txt hv ha
    rw [testQueryCell_latency, hv]
    simp [ha]
  · intro llm2
    rw [testQueryCell_latency, testQueryCell_latency]

/-- Witness for the amended C3: concrete latencies on a metadata
configuration and on a vector configuration. -/
theorem c3_latency_formula_witness :
    (testQueryCell [] c3EnvA
      ⟨"NoVectors_NoSearchable_NoAmenities", false, false, false,
        "No vectorization, description only, no amenity filtering"⟩
      ⟨"q", [], "d"⟩).latency_ms = some 0 ∧
    (testQueryCell [] c3EnvB c3Config ⟨"q", [], "d"⟩).latency_ms =
      some (5 + 3) :=
  ⟨(c3_latency_formula [] c3EnvA _ _).1 rfl,
   (c3_latency_formula [] c3EnvB c3Config _).2.1 "A" rfl rfl⟩

/-- C1: for every catalog and every behaviour of the external agent and
judge — including oracles that always raise — each of the 8 configurations
yields exactly 10 evaluation records (80 in total), the compiled summary
carries all 8 configuration keys in order, and a per-query exception is
replaced by a record with accuracy 0, `is_correct = false`, `latency_ms = 0`
and the error text, never aborting the remaining queries or
configurations. -/
theorem c1_pipeline_dense_matrix (catalog : List CatalogProp) (env : Env) :
    (run_full_evaluation_results catalog env).map
        (fun pr => pr.2.length) = List.replicate 8 10 ∧
    ((run_full_evaluation_results catalog env).map
        (fun pr => pr.2.length)).sum = 80 ∧
    (run_full_evaluation_results catalog env).map Prod.fst =
      TEST_CONFIGURATIONS.map TestConfiguration.name ∧
    (run_full_evaluation catalog env).map Prod.fst =
      TEST_CONFIGURATIONS.map TestConfiguration.name ∧
    (∀ config tc e, cellTry catalog env config tc = .error e →
      testQueryCell catalog env config tc =
        { accuracy := 0, is_correct := false, latency_ms := some 0,
          error := some e, configuration := some config.name }) := by
  refine ⟨rfl, rfl, rfl, rfl, ?_⟩
  intro config tc e h
  simp [testQueryCell, h, errorRecord]

/-- Environment for the C1 witness: every external call raises. -/
def c1WitnessEnv : Env :=
  { agent := fun _ => .error "search down", agentTime := fun _ => 0,
    parseTime := fun _ => 0, mdTime := fun _ => 0,
    llm := fun _ _ => .error "judge down" }

/-- Witness for C1: with all external calls raising, the run still produces
8 × 10 records, and a failing vector-search cell yields the error record. -/
theorem c1_pipeline_dense_matrix_witness :
    ((run_full_evaluation_results [] c1WitnessEnv).map
        (fun pr => pr.2.length)).sum = 80 ∧
    testQueryCell [] c1WitnessEnv
      ⟨"WithVectors_NoSearchable_NoAmenities", true, false, false,
        "With vectorization, description only, no amenity filtering"⟩
      ⟨"q", [], "d"⟩ =
      { accuracy := 0, is_correct := false, latency_ms := some 0,
        error := some "search down",
        configuration := some "WithVectors_NoSearchable_NoAmenities" } :=
  ⟨(c1_pipeline_dense_matrix [] c1WitnessEnv).2.1,
   (c1_pipeline_dense_matrix [] c1WitnessEnv).2.2.2.2
     ⟨"WithVectors_NoSearchable_NoAmenities", true, false, false,
       "With vectorization, description only, no amenity filtering"⟩
     ⟨"q", [], "d"⟩ "search down" rfl⟩

/-- The claim-side match predicate: title and city equal case-insensitively,
price equal exactly. -/
def specPropertyMatch (c : CatalogProp) (p : ParsedProp) : Bool :=
  pyLower c.title == pyLower p.title && pyLower c.city == pyLower p.city &&
    c.price == p.price

/-- Catalog entry of the C8 concrete example. -/
def c8Entry : CatalogProp :=
  { property_id := "P1", title := "Sunset Condo", description := "",
    price := 450000, bedrooms := 2, bathrooms := 2, city := "Miami",
    state := "FL", property_type := "condo", amenities := [] }

/-- Partial record of the C8 concrete example (case differences only). -/
def c8Partial : ParsedProp :=
  { title := "sunset condo", city := "MIAMI", state := "FL",
    neighborhood := "", price := 450000, property_id := "UNKNOWN" }

/-- C8: the property matcher returns the id of the first catalog entry (in
catalog order) matching title and city case-insensitively and price exactly,
and `none` when no entry matches; in particular a price off by one turns the
concrete example match into not-found. -/
theorem c8_matcher_first_match :
    (∀ (catalog : List CatalogProp) (p : ParsedProp),
      findMatchingPropertyId catalog p =
        (catalog.find? (fun c => specPropertyMatch c p)).map
          CatalogProp.property_id) ∧
    findMatchingPropertyId [c8Entry] c8Partial = some "P1" ∧
    findMatchingPropertyId [c8Entry]
      { c8Partial with price := 450001 } = none := by
  refine ⟨?_, by decide, by decide⟩
  intro catalog p
  induction catalog with
  | nil => rfl
  | cons c rest ih =>
    have hunf : findMatchingPropertyId (c :: rest) p =
        if specPropertyMatch c p = true then some c.property_id
        else findMatchingPropertyId rest p := rfl
    rw [hunf, List.find?_cons]
    cases h : specPropertyMatch c p with
    | true => simp
    | false => simp [ih]

/-- The concrete input of C7. -/
def c7Input : String :=
  "- Sunset Condo (Downtown, Miami, FL) — $450,000\n2 bed | 2 bath | 1000 sqft | condo | 2020"

/-- The record C7 expects, with the parser's id sentinel. -/
def c7Base : ParsedProp :=
  { title := "Sunset Condo", city := "Miami", state := "FL",
    neighborhood := "Downtown", price := 450000, property_id := "UNKNOWN",
    bedrooms := some 2, bathrooms := some 2, property_type := some "condo" }

/-- Normalise the matcher-resolved id back to the parser's sentinel, leaving
every other field untouched. -/
def stripRowId (p : ParsedProp) : ParsedProp :=
  { p with property_id := "UNKNOWN" }

/-- C7: for every catalog, parsing the given two-line input yields exactly one
record with title `Sunset Condo`, neighborhood `Downtown`, city `Miami`,
state `FL`, price 450000, bedrooms 2, bathrooms 2.0 and property type
`condo` (the resolved property id, the one catalog-dependent field, is
normalised away). -/
theorem c7_parser_example (catalog : List CatalogProp) :
    (parseAgentResponse catalog c7Input).map stripRowId = [c7Base] := by
  have h : parseAgentResponse catalog c7Input =
      [applyIdMatch catalog c7Base] := rfl
  rw [h]
  unfold applyIdMatch
  cases hm : findMatchingPropertyId catalog c7Base with
  | none => rfl
  | some id =>
    by_cases hid : id = "" <;> simp [hid, stripRowId, c7Base]
